import Mathlib

/-!
Verification of the deployment orchestrator of CloudOps-toolkit
(`app/deploy_trigger.py`), as a shallow embedding.

The module shells out to an external IaC tool; here each operation is a
pure function of the outcome of its subprocess call (exit code, captured
stdout/stderr, or the exception that interrupted the call), which is the
only input the Python code branches on.
-/

namespace DeployTrigger

/-!
ANSI stripping (`strip_ansi_codes`).

The source compiles a regex (ESC, then either one byte of a two-byte
escape or a full CSI sequence) and replaces every match with the empty
string.  The first alternative is a two-byte escape: ESC followed by a
byte in 0x40-0x5A or 0x5C-0x5F (note 0x5B, the opening bracket, is
excluded).  The second is a CSI sequence: ESC, the bracket 0x5B, any run
of parameter bytes 0x30-0x3F, any run of intermediate bytes 0x20-0x2F,
and one final byte 0x40-0x7E.  The three CSI classes are pairwise
disjoint, so the greedy scan below computes exactly the regex engine's
leftmost, non-overlapping substitution.
-/

def escChar : Char := Char.ofNat 27

/-- Second byte of a two-byte escape: the regex class covering
0x40-0x5A and 0x5C-0x5F. -/
def isFe (c : Char) : Bool :=
  (0x40 ≤ c.toNat && c.toNat ≤ 0x5A) || (0x5C ≤ c.toNat && c.toNat ≤ 0x5F)

/-- CSI parameter byte, the regex class covering 0x30-0x3F. -/
def isCsiParam (c : Char) : Bool := 0x30 ≤ c.toNat && c.toNat ≤ 0x3F

/-- CSI intermediate byte, the regex class covering 0x20-0x2F. -/
def isCsiInter (c : Char) : Bool := 0x20 ≤ c.toNat && c.toNat ≤ 0x2F

/-- CSI final byte, the regex class covering 0x40-0x7E. -/
def isCsiFinal (c : Char) : Bool := 0x40 ≤ c.toNat && c.toNat ≤ 0x7E

/-- Given the characters after `ESC [`, return the remainder after the body
of a CSI match, or `none` when the sequence is incomplete. -/
def csiSuffix (l : List Char) : Option (List Char) :=
  match (l.dropWhile isCsiParam).dropWhile isCsiInter with
  | d :: rest => if isCsiFinal d then some rest else none
  | [] => none

/-- Given the characters after an ESC, return the remainder of the list
after a regex match starting at that ESC, or `none` when the regex does
not match there. -/
def ansiTail : List Char → Option (List Char)
  | [] => none
  | c :: rest =>
    if isFe c then some rest
    else if c = '[' then csiSuffix rest
    else none

/-- The left-to-right pass of `re.sub`: at each position, delete a match or
keep the character and move on.  `fuel` only bounds the recursion; any
`fuel ≥ l.length` gives the same result. -/
def stripGo : Nat → List Char → List Char
  | 0, l => l
  | _ + 1, [] => []
  | fuel + 1, c :: rest =>
    if c = escChar then
      match ansiTail rest with
      | some rest2 => stripGo fuel rest2
      | none => c :: stripGo fuel rest
    else c :: stripGo fuel rest

def stripAnsiList (l : List Char) : List Char := stripGo l.length l

/-- `strip_ansi_codes` of the source: remove every ANSI escape sequence. -/
def strip_ansi_codes (s : String) : String := String.mk (stripAnsiList s.data)

theorem dropWhile_length_le {α : Type} (p : α → Bool) :
    ∀ l : List α, (l.dropWhile p).length ≤ l.length := by
  intro l
  induction l with
  | nil => simp [List.dropWhile]
  | cons a l ih =>
    simp only [List.dropWhile]
    split
    · exact Nat.le_succ_of_le ih
    · exact Nat.le_refl _

theorem csiSuffix_some_length {l r : List Char} (h : csiSuffix l = some r) :
    r.length < l.length := by
  unfold csiSuffix at h
  split at h
  · rename_i d rest hm
    split at h
    · cases h
      have h1 : (d :: r).length ≤ (l.dropWhile isCsiParam).length := by
        rw [← hm]; exact dropWhile_length_le _ _
      have h2 : (l.dropWhile isCsiParam).length ≤ l.length :=
        dropWhile_length_le _ _
      simp only [List.length_cons] at h1
      omega
    · cases h
  · cases h

theorem ansiTail_some_length {l r : List Char} (h : ansiTail l = some r) :
    r.length < l.length := by
  cases l with
  | nil => simp [ansiTail] at h
  | cons c rest =>
    simp only [ansiTail] at h
    split at h
    · cases h
      simp
    · split at h
      · have := csiSuffix_some_length h
        simp only [List.length_cons]
        omega
      · cases h

theorem stripGo_length_le : ∀ (fuel : Nat) (l : List Char),
    (stripGo fuel l).length ≤ l.length := by
  intro fuel
  induction fuel with
  | zero => intro l; simp [stripGo]
  | succ n ih =>
    intro l
    cases l with
    | nil => simp [stripGo]
    | cons c rest =>
      simp only [stripGo]
      by_cases hc : c = escChar
      · rw [if_pos hc]
        cases hm : ansiTail rest with
        | some rest2 =>
          have h1 := ansiTail_some_length hm
          have h2 := ih rest2
          simp only [List.length_cons]
          omega
        | none =>
          have h2 := ih rest
          simp only [List.length_cons]
          omega
      · rw [if_neg hc]
        have h2 := ih rest
        simp only [List.length_cons]
        omega

theorem stripGo_no_esc : ∀ (fuel : Nat) (l : List Char), l.length ≤ fuel →
    (∀ c ∈ l, c ≠ escChar) → stripGo fuel l = l := by
  intro fuel
  induction fuel with
  | zero =>
    intro l hl _
    have : l = [] := List.eq_nil_of_length_eq_zero (Nat.le_zero.mp hl)
    subst this
    rfl
  | succ n ih =>
    intro l hl hc
    cases l with
    | nil => rfl
    | cons c rest =>
      have hcne : c ≠ escChar := hc c (List.mem_cons_self c rest)
      simp only [stripGo, if_neg hcne]
      have hrest : rest.length ≤ n := by
        simp only [List.length_cons] at hl
        omega
      rw [ih rest hrest (fun d hd => hc d (List.mem_cons_of_mem c hd))]

theorem strip_ansi_codes_no_esc (s : String) (h : ∀ c ∈ s.data, c ≠ escChar) :
    strip_ansi_codes s = s := by
  show String.mk (stripGo s.data.length s.data) = s
  rw [stripGo_no_esc s.data.length s.data (Nat.le_refl _) h]

/-!
Python `str.strip()` with no argument, used for the version field.  It
removes leading and trailing whitespace; the claims only exercise ASCII
whitespace, modelled here explicitly.
-/

def isPySpace (c : Char) : Bool :=
  c = ' ' || c = Char.ofNat 9 || c = Char.ofNat 10 || c = Char.ofNat 13 ||
    c = Char.ofNat 11 || c = Char.ofNat 12

def pyStrip (s : String) : String :=
  String.mk (((s.data.dropWhile isPySpace).reverse.dropWhile isPySpace).reverse)

/-!
The JSON documents produced by the tool's `show -json` and `output -json`
subcommands, and the fragment of Python dict access the source applies to
them.  `json.loads` itself is standard-library code outside this
repository; it enters the model as an abstract `parse : String → Option
Json` argument (`none` models a `json.JSONDecodeError`), plus concrete
instances used in closed examples that agree with `json.loads` on every
string they are applied to.
-/

inductive Json where
  | null : Json
  | bool (b : Bool) : Json
  | num (n : Int) : Json
  | str (s : String) : Json
  | arr (xs : List Json) : Json
  | obj (fields : List (String × Json)) : Json

/-- Lookup in a decoded object.  `json.loads` builds a Python dict, where a
duplicated key keeps the value of its last occurrence. -/
def lookupLast (fields : List (String × Json)) (k : String) : Option Json :=
  fields.foldl (fun acc p => if p.1 = k then some p.2 else acc) none

/-- Python `d.get(k, default)`: the source applies it to decoded values at
`values`, `root_module` and each resource.  On a non-dict value `.get`
raises an `AttributeError`; the error string here stands for `str(e)` of
that exception, which the source only ever forwards verbatim. -/
def pyGet (j : Json) (k : String) (d : Json) : Except String Json :=
  match j with
  | .obj fields => .ok ((lookupLast fields k).getD d)
  | _ => .error "AttributeError: value has no attribute get"

/-- The extraction chain of `get_terraform_state`:
`state_data.get(..values..).get(..root_module..).get(..resources..)`, then
the value is used as a list.  A non-list `resources` value raises in the
source (at `len` or inside the comprehension) and is modelled as an
error, forwarded like any other exception message. -/
def getResources (state_data : Json) : Except String (List Json) :=
  match pyGet state_data "values" (.obj []) with
  | .error e => .error e
  | .ok v =>
    match pyGet v "root_module" (.obj []) with
    | .error e => .error e
    | .ok rm =>
      match pyGet rm "resources" (.arr []) with
      | .error e => .error e
      | .ok rs =>
        match rs with
        | .arr xs => .ok xs
        | _ => .error "TypeError: resources value is not a list"

/-- One resource's entry in `resource_list`: `r.get(..address.., ..Unknown..)`. -/
def addrOf (r : Json) : Except String Json := pyGet r "address" (.str "Unknown")

/-- The list comprehension over the resources: left to right, stopping at the
first raising element. -/
def mapExcept (f : Json → Except String Json) : List Json → Except String (List Json)
  | [] => .ok []
  | x :: xs =>
    match f x with
    | .ok a =>
      match mapExcept f xs with
      | .ok as => .ok (a :: as)
      | .error e => .error e
    | .error e => .error e

/-!
The subprocess boundary.  `subprocess.run(..., capture_output=True,
text=True, timeout=...)` either completes with an exit code and captured
text, raises `subprocess.TimeoutExpired`, or raises some other exception
(e.g. `FileNotFoundError` when the executable is missing); these are the
three shapes every operation branches on.
-/

structure ProcResult where
  returncode : Int
  stdout : String
  stderr : String

inductive ProcOutcome where
  | completed (r : ProcResult) : ProcOutcome
  | timedOut : ProcOutcome
  | exn (msg : String) : ProcOutcome

/-- The fixed command line, working directory and timeout (in seconds) each
operation passes to `subprocess.run`. -/
structure CallSpec where
  argv : List String
  cwd : String
  timeoutSecs : Nat

def versionCall : CallSpec := ⟨["terraform", "version"], "terraform", 10⟩

def planCall : CallSpec := ⟨["terraform", "plan", "-out=tfplan"], "terraform", 120⟩

def applyCall : CallSpec := ⟨["terraform", "apply", "-auto-approve", "tfplan"], "terraform", 600⟩

def destroyCall : CallSpec := ⟨["terraform", "destroy", "-auto-approve"], "terraform", 600⟩

def showCall : CallSpec := ⟨["terraform", "show", "-json"], "terraform", 30⟩

def outputCall : CallSpec := ⟨["terraform", "output", "-json"], "terraform", 30⟩

/-- The dict returned by `terraform_plan`, `terraform_apply`,
`terraform_destroy` and `trigger_terraform`: `none` models an absent key
(or an explicit Python `None` for `error`). -/
structure OpResult where
  success : Bool
  output : Option String := none
  error : Option String := none

def terraform_plan : ProcOutcome → OpResult
  | .completed r =>
    { success := r.returncode == 0
      output := some (strip_ansi_codes r.stdout)
      error := if r.returncode ≠ 0 then some (strip_ansi_codes r.stderr) else none }
  | .timedOut => { success := false, error := some "Terraform plan timed out after 2 minutes" }
  | .exn m => { success := false, error := some m }

def terraform_apply : ProcOutcome → OpResult
  | .completed r =>
    { success := r.returncode == 0
      output := some (strip_ansi_codes r.stdout)
      error := if r.returncode ≠ 0 then some (strip_ansi_codes r.stderr) else none }
  | .timedOut => { success := false, error := some "Terraform apply timed out after 10 minutes" }
  | .exn m => { success := false, error := some m }

def terraform_destroy : ProcOutcome → OpResult
  | .completed r =>
    { success := r.returncode == 0
      output := some (strip_ansi_codes r.stdout)
      error := if r.returncode ≠ 0 then some (strip_ansi_codes r.stderr) else none }
  | .timedOut => { success := false, error := some "Terraform destroy timed out after 10 minutes" }
  | .exn m => { success := false, error := some m }

/-- The dict returned by `get_terraform_status`.  The second argument is the
side-channel filesystem fact `os.path.exists("terraform/.terraform")`. -/
structure StatusResult where
  terraform_available : Bool
  version : Option String := none
  initialized : Option Bool := none
  error : Option String := none

def get_terraform_status (o : ProcOutcome) (dotTerraformExists : Bool) : StatusResult :=
  match o with
  | .completed r =>
    if r.returncode = 0 then
      { terraform_available := true
        version := some (pyStrip r.stdout)
        initialized := some dotTerraformExists }
    else
      { terraform_available := false, error := some r.stderr }
  | .timedOut => { terraform_available := false, error := some "Terraform command timed out" }
  | .exn m => { terraform_available := false, error := some m }

/-- The dict returned by `get_terraform_state`. -/
structure StateResult where
  success : Bool
  resources : Option Nat := none
  resource_list : Option (List Json) := none
  state_data : Option Json := none
  error : Option String := none

def get_terraform_state (parse : String → Option Json) : ProcOutcome → StateResult
  | .completed r =>
    if r.returncode = 0 then
      match parse r.stdout with
      | some state_data =>
        match getResources state_data with
        | .ok rs =>
          match mapExcept addrOf rs with
          | .ok addrs =>
            { success := true
              resources := some rs.length
              resource_list := some addrs
              state_data := some state_data }
          | .error e => { success := false, error := some e }
        | .error e => { success := false, error := some e }
      | none => { success := false, error := some "Failed to parse Terraform state JSON" }
    else
      { success := false
        error := some (if r.stderr = "" then "No state information available"
                       else strip_ansi_codes r.stderr) }
  | .timedOut => { success := false, error := some "Terraform state check timed out" }
  | .exn m => { success := false, error := some m }

/-- The dict returned by `get_terraform_outputs`. -/
structure OutputsResult where
  success : Bool
  outputs : Option Json := none
  error : Option String := none

def get_terraform_outputs (parse : String → Option Json) : ProcOutcome → OutputsResult
  | .completed r =>
    if r.returncode = 0 then
      match parse r.stdout with
      | some j => { success := true, outputs := some j }
      | none => { success := false, error := some "Failed to parse Terraform outputs JSON" }
    else
      { success := false
        error := some (if r.stderr = "" then "No outputs available"
                       else strip_ansi_codes r.stderr) }
  | .timedOut => { success := false, error := some "Terraform outputs check timed out" }
  | .exn m => { success := false, error := some m }

/-- What each of the three mutating subprocess calls would produce, were it
invoked: `trigger_terraform` chooses at most one of them by name. -/
structure World where
  planOutcome : ProcOutcome
  applyOutcome : ProcOutcome
  destroyOutcome : ProcOutcome

def trigger_terraform (action : String) (w : World) : OpResult :=
  if action = "plan" then terraform_plan w.planOutcome
  else if action = "apply" then terraform_apply w.applyOutcome
  else if action = "destroy" then terraform_destroy w.destroyOutcome
  else
    { success := false
      error := some ("Unknown action: " ++ action ++
        ". Supported actions: plan, apply, destroy") }

/-- A concrete instance of the abstract `parse` argument, for closed
examples.  On every string it is applied to in this file it agrees with
`json.loads`: the empty object decodes to an empty dict, the demo state
document decodes to the nested dict spelled out in `demoStateJson`, and
the lone opening brace is malformed, so `json.loads` raises. -/
def demoStateDoc : String :=
  "\x7b\"values\": \x7b\"root_module\": \x7b\"resources\": [\x7b\"address\": \"aws_s3_bucket.demo\"\x7d, \x7b\x7d]\x7d\x7d\x7d"

def demoStateJson : Json :=
  .obj [("values", .obj [("root_module", .obj [("resources",
    .arr [.obj [("address", .str "aws_s3_bucket.demo")], .obj []])])])]

def exampleParse (s : String) : Option Json :=
  if s = "\x7b\x7d" then some (.obj [])
  else if s = demoStateDoc then some demoStateJson
  else none

theorem mapExcept_ok_length {f : Json → Except String Json} :
    ∀ {xs l : List Json}, mapExcept f xs = .ok l → l.length = xs.length := by
  intro xs
  induction xs with
  | nil =>
    intro l h
    simp only [mapExcept] at h
    cases h
    rfl
  | cons x xs ih =>
    intro l h
    simp only [mapExcept] at h
    split at h
    · split at h
      · rename_i as hmx
        cases h
        simp only [List.length_cons, ih hmx]
      · cases h
    · cases h

theorem mapExcept_ok_get {f : Json → Except String Json} :
    ∀ {xs l : List Json}, mapExcept f xs = .ok l →
      ∀ i (hx : i < xs.length) (hl : i < l.length),
        f (xs.get ⟨i, hx⟩) = .ok (l.get ⟨i, hl⟩) := by
  intro xs
  induction xs with
  | nil =>
    intro l h i hx hl
    exact absurd hx (by simp)
  | cons x xs ih =>
    intro l h i hx hl
    simp only [mapExcept] at h
    split at h
    · rename_i a hfx
      split at h
      · rename_i as hmx
        cases h
        cases i with
        | zero => exact hfx
        | succ j => exact ih hmx j (Nat.lt_of_succ_lt_succ hx) (Nat.lt_of_succ_lt_succ hl)
      · cases h
    · cases h

/-- C1: for each of Plan, Apply and Destroy, when the subprocess completes
without exception, `success` is true exactly when the exit code is 0, the
returned output is the subprocess stdout with ANSI escapes stripped, and
on a nonzero exit code the error field is the ANSI-stripped stderr. -/
theorem completed_result_contract (r : ProcResult) :
    (((terraform_plan (.completed r)).success = true ↔ r.returncode = 0) ∧
      (terraform_plan (.completed r)).output = some (strip_ansi_codes r.stdout) ∧
      (r.returncode ≠ 0 →
        (terraform_plan (.completed r)).error = some (strip_ansi_codes r.stderr))) ∧
    (((terraform_apply (.completed r)).success = true ↔ r.returncode = 0) ∧
      (terraform_apply (.completed r)).output = some (strip_ansi_codes r.stdout) ∧
      (r.returncode ≠ 0 →
        (terraform_apply (.completed r)).error = some (strip_ansi_codes r.stderr))) ∧
    (((terraform_destroy (.completed r)).success = true ↔ r.returncode = 0) ∧
      (terraform_destroy (.completed r)).output = some (strip_ansi_codes r.stdout) ∧
      (r.returncode ≠ 0 →
        (terraform_destroy (.completed r)).error = some (strip_ansi_codes r.stderr))) := by
  refine ⟨⟨?_, rfl, ?_⟩, ⟨?_, rfl, ?_⟩, ⟨?_, rfl, ?_⟩⟩
  · simp [terraform_plan]
  · intro h; simp [terraform_plan, h]
  · simp [terraform_apply]
  · intro h; simp [terraform_apply, h]
  · simp [terraform_destroy]
  · intro h; simp [terraform_destroy, h]

theorem completed_result_contract_w :
    ((1 : Int) ≠ 0) ∧
    (terraform_plan (.completed ⟨1, "", "boom"⟩)).error = some (strip_ansi_codes "boom") ∧
    (terraform_apply (.completed ⟨0, "done", ""⟩)).success = true :=
  ⟨by decide,
   (completed_result_contract ⟨1, "", "boom"⟩).1.2.2 (by decide),
   ((completed_result_contract ⟨0, "done", ""⟩).2.1.1).mpr rfl⟩

/-- C9: for Plan, Apply and Destroy the error field is `None` exactly when
the process completed with exit code 0; after a timeout or any other
exception it is populated. -/
theorem error_none_iff_exit_zero (r : ProcResult) (m : String) :
    ((terraform_plan (.completed r)).error = none ↔ r.returncode = 0) ∧
    ((terraform_apply (.completed r)).error = none ↔ r.returncode = 0) ∧
    ((terraform_destroy (.completed r)).error = none ↔ r.returncode = 0) ∧
    (terraform_plan .timedOut).error.isSome = true ∧
    (terraform_apply .timedOut).error.isSome = true ∧
    (terraform_destroy .timedOut).error.isSome = true ∧
    (terraform_plan (.exn m)).error.isSome = true ∧
    (terraform_apply (.exn m)).error.isSome = true ∧
    (terraform_destroy (.exn m)).error.isSome = true := by
  refine ⟨?_, ?_, ?_, rfl, rfl, rfl, rfl, rfl, rfl⟩
  · by_cases h : r.returncode = 0 <;> simp [terraform_plan, h]
  · by_cases h : r.returncode = 0 <;> simp [terraform_apply, h]
  · by_cases h : r.returncode = 0 <;> simp [terraform_destroy, h]

theorem error_none_iff_exit_zero_w :
    (terraform_plan (.completed ⟨0, "ok", "warning text"⟩)).error = none :=
  (error_none_iff_exit_zero ⟨0, "ok", "warning text"⟩ "m").1.mpr rfl

/-- C3: `trigger_terraform` routes "plan", "apply" and "destroy" to the
corresponding operation, and returns the unknown-action failure for any
other name, independent of every subprocess outcome. -/
theorem trigger_terraform_dispatch (w : World) (a : String) :
    trigger_terraform "plan" w = terraform_plan w.planOutcome ∧
    trigger_terraform "apply" w = terraform_apply w.applyOutcome ∧
    trigger_terraform "destroy" w = terraform_destroy w.destroyOutcome ∧
    (a ≠ "plan" → a ≠ "apply" → a ≠ "destroy" →
      trigger_terraform a w =
        { success := false, output := none,
          error := some ("Unknown action: " ++ a ++
            ". Supported actions: plan, apply, destroy") }) := by
  refine ⟨rfl, rfl, rfl, ?_⟩
  intro h1 h2 h3
  simp [trigger_terraform, h1, h2, h3]

theorem trigger_terraform_dispatch_w :
    trigger_terraform "frobnicate" ⟨.timedOut, .timedOut, .timedOut⟩ =
      { success := false, output := none,
        error := some ("Unknown action: " ++ "frobnicate" ++
          ". Supported actions: plan, apply, destroy") } :=
  (trigger_terraform_dispatch ⟨.timedOut, .timedOut, .timedOut⟩ "frobnicate").2.2.2
    (by decide) (by decide) (by decide)

/-- C6: the configured timeouts are 10s for the availability check, 120s for
plan, 600s for apply and destroy (30s for the state and outputs reads),
and a timed-out subprocess yields a failure result carrying the
operation's timeout message instead of an exception. -/
theorem timeout_contract (b : Bool) (parse : String → Option Json) :
    versionCall.timeoutSecs = 10 ∧
    planCall.timeoutSecs = 120 ∧
    applyCall.timeoutSecs = 600 ∧
    destroyCall.timeoutSecs = 600 ∧
    showCall.timeoutSecs = 30 ∧
    outputCall.timeoutSecs = 30 ∧
    terraform_plan .timedOut =
      { success := false, output := none,
        error := some "Terraform plan timed out after 2 minutes" } ∧
    terraform_apply .timedOut =
      { success := false, output := none,
        error := some "Terraform apply timed out after 10 minutes" } ∧
    terraform_destroy .timedOut =
      { success := false, output := none,
        error := some "Terraform destroy timed out after 10 minutes" } ∧
    get_terraform_status .timedOut b =
      { terraform_available := false, version := none, initialized := none,
        error := some "Terraform command timed out" } ∧
    get_terraform_state parse .timedOut =
      { success := false, resources := none, resource_list := none,
        state_data := none, error := some "Terraform state check timed out" } ∧
    get_terraform_outputs parse .timedOut =
      { success := false, outputs := none,
        error := some "Terraform outputs check timed out" } :=
  ⟨rfl, rfl, rfl, rfl, rfl, rfl, rfl, rfl, rfl, rfl, rfl, rfl⟩

/-- C7: every exception at the subprocess boundary (timeout or any other,
e.g. executable not found) is returned by every operation as a structured
failure value carrying the message, never propagated. -/
theorem exceptions_caught_at_boundary (m : String) (b : Bool)
    (parse : String → Option Json) :
    terraform_plan (.exn m) = { success := false, output := none, error := some m } ∧
    terraform_apply (.exn m) = { success := false, output := none, error := some m } ∧
    terraform_destroy (.exn m) = { success := false, output := none, error := some m } ∧
    get_terraform_status (.exn m) b =
      { terraform_available := false, version := none, initialized := none,
        error := some m } ∧
    get_terraform_state parse (.exn m) =
      { success := false, resources := none, resource_list := none,
        state_data := none, error := some m } ∧
    get_terraform_outputs parse (.exn m) =
      { success := false, outputs := none, error := some m } ∧
    (trigger_terraform "plan" ⟨.exn m, .exn m, .exn m⟩).success = false ∧
    (trigger_terraform "apply" ⟨.exn m, .exn m, .exn m⟩).success = false ∧
    (trigger_terraform "destroy" ⟨.exn m, .exn m, .exn m⟩).success = false :=
  ⟨rfl, rfl, rfl, rfl, rfl, rfl, rfl, rfl, rfl⟩

/-- C8: the stripping function is total; in particular the output never
grows, and the malformed inputs named by the spec (a lone ESC, ESC with
an incomplete CSI sequence) are returned unchanged rather than raising. -/
theorem strip_ansi_codes_total :
    (∀ s : String, (strip_ansi_codes s).length ≤ s.length) ∧
    strip_ansi_codes (String.mk [escChar]) = String.mk [escChar] ∧
    strip_ansi_codes (String.mk [escChar, '[']) = String.mk [escChar, '['] ∧
    strip_ansi_codes (String.mk [escChar, '[', '0']) = String.mk [escChar, '[', '0'] := by
  refine ⟨fun s => ?_, rfl, rfl, rfl⟩
  exact stripGo_length_le s.data.length s.data

/-- C2 (amended): stripping is the identity, hence idempotent, on every
string containing no ESC character; in general a single pass is not
idempotent, because deleting a match can bring a new escape sequence
together (see the counterexample). -/
theorem strip_idempotent_on_esc_free (s : String) (h : ∀ c ∈ s.data, c ≠ escChar) :
    strip_ansi_codes s = s ∧
    strip_ansi_codes (strip_ansi_codes s) = strip_ansi_codes s := by
  have h1 := strip_ansi_codes_no_esc s h
  exact ⟨h1, by rw [h1, h1]⟩

theorem strip_idempotent_on_esc_free_w :
    (∀ c ∈ ("terraform plan ok" : String).data, c ≠ escChar) ∧
    strip_ansi_codes "terraform plan ok" = "terraform plan ok" :=
  ⟨by decide, (strip_idempotent_on_esc_free "terraform plan ok" (by decide)).1⟩

/-- C2 counterexample: on ESC ESC `[` m `[` m, one pass deletes the inner
CSI sequence and thereby forms a new one from the leftovers, so stripping
twice removes strictly more than stripping once. -/
theorem strip_not_idempotent :
    strip_ansi_codes (strip_ansi_codes (String.mk [escChar, escChar, '[', 'm', '[', 'm'])) ≠
      strip_ansi_codes (String.mk [escChar, escChar, '[', 'm', '[', 'm']) := by
  decide

/-- C4 (amended): availability is true exactly when the version check exits
0; in that case the version field is the whole captured stdout with
surrounding whitespace stripped (not just its first line) and the
initialized field is the filesystem marker check; any exception yields
available false with the reason in the error field, never a raised
exception. -/
theorem get_terraform_status_contract (r : ProcResult) (fs : Bool) (m : String) :
    ((get_terraform_status (.completed r) fs).terraform_available = true ↔
      r.returncode = 0) ∧
    (r.returncode = 0 →
      (get_terraform_status (.completed r) fs).version = some (pyStrip r.stdout) ∧
      (get_terraform_status (.completed r) fs).initialized = some fs ∧
      (get_terraform_status (.completed r) fs).error = none) ∧
    (r.returncode ≠ 0 →
      (get_terraform_status (.completed r) fs).terraform_available = false ∧
      (get_terraform_status (.completed r) fs).error = some r.stderr) ∧
    (get_terraform_status .timedOut fs).terraform_available = false ∧
    (get_terraform_status .timedOut fs).error = some "Terraform command timed out" ∧
    (get_terraform_status (.exn m) fs).terraform_available = false ∧
    (get_terraform_status (.exn m) fs).error = some m := by
  refine ⟨?_, ?_, ?_, rfl, rfl, rfl, rfl⟩
  · by_cases h : r.returncode = 0 <;> simp [get_terraform_status, h]
  · intro h; simp [get_terraform_status, h]
  · intro h; simp [get_terraform_status, h]

theorem get_terraform_status_contract_w :
    (get_terraform_status
        (.completed ⟨0, "Terraform v1.5.0\non linux_amd64\n", ""⟩) true).version =
      some (pyStrip "Terraform v1.5.0\non linux_amd64\n") ∧
    (get_terraform_status
        (.completed ⟨0, "Terraform v1.5.0\non linux_amd64\n", ""⟩) true).initialized =
      some true :=
  ⟨((get_terraform_status_contract
      ⟨0, "Terraform v1.5.0\non linux_amd64\n", ""⟩ true "m").2.1 rfl).1,
   ((get_terraform_status_contract
      ⟨0, "Terraform v1.5.0\non linux_amd64\n", ""⟩ true "m").2.1 rfl).2.1⟩

/-- C4 counterexample: on a multi-line capture the version field is the
whole whitespace-trimmed stdout, not its first line. -/
theorem get_terraform_status_version_not_first_line :
    (get_terraform_status
        (.completed ⟨0, "Terraform v1.5.0\non linux_amd64\n", ""⟩) true).version =
      some "Terraform v1.5.0\non linux_amd64" ∧
    ("Terraform v1.5.0\non linux_amd64" : String) ≠ "Terraform v1.5.0" :=
  ⟨rfl, by decide⟩

/-- C5 (amended): a zero-exit run whose stdout parses with zero resources
returns success with count 0 and an empty list; a zero-exit run with
unparseable stdout fails with the parse message; a nonzero-exit run fails
with the sanitized stderr (or a no-state message when stderr is empty).
The zero-resource success differs from both failures, and the two
failures differ unless the sanitized stderr is exactly the parse-failure
message, in which case the two results coincide. -/
theorem get_terraform_state_outcomes (parse : String → Option Json)
    (r r2 : ProcResult) (sd : Json) :
    (r.returncode = 0 → parse r.stdout = some sd → getResources sd = .ok [] →
      get_terraform_state parse (.completed r) =
        { success := true, resources := some 0, resource_list := some [],
          state_data := some sd, error := none }) ∧
    (r.returncode = 0 → parse r.stdout = none →
      get_terraform_state parse (.completed r) =
        { success := false, resources := none, resource_list := none,
          state_data := none,
          error := some "Failed to parse Terraform state JSON" }) ∧
    (r2.returncode ≠ 0 →
      get_terraform_state parse (.completed r2) =
        { success := false, resources := none, resource_list := none,
          state_data := none,
          error := some (if r2.stderr = "" then "No state information available"
                         else strip_ansi_codes r2.stderr) }) ∧
    (r.returncode = 0 → parse r.stdout = some sd → getResources sd = .ok [] →
      r2.returncode ≠ 0 →
      get_terraform_state parse (.completed r) ≠
        get_terraform_state parse (.completed r2)) ∧
    (r.returncode = 0 → parse r.stdout = some sd → getResources sd = .ok [] →
      r2.returncode = 0 → parse r2.stdout = none →
      get_terraform_state parse (.completed r) ≠
        get_terraform_state parse (.completed r2)) ∧
    (r.returncode = 0 → parse r.stdout = none → r2.returncode ≠ 0 →
      (r2.stderr = "" ∨
        strip_ansi_codes r2.stderr ≠ "Failed to parse Terraform state JSON") →
      get_terraform_state parse (.completed r) ≠
        get_terraform_state parse (.completed r2)) := by
  have zeroRes : ∀ q : ProcResult, q.returncode = 0 → parse q.stdout = some sd →
      getResources sd = .ok [] →
      get_terraform_state parse (.completed q) =
        { success := true, resources := some 0, resource_list := some [],
          state_data := some sd, error := none } := by
    intro q hz hp hg
    simp [get_terraform_state, hz, hp, hg, mapExcept]
  have parseFail : ∀ q : ProcResult, q.returncode = 0 → parse q.stdout = none →
      get_terraform_state parse (.completed q) =
        { success := false, resources := none, resource_list := none,
          state_data := none,
          error := some "Failed to parse Terraform state JSON" } := by
    intro q hz hp
    simp [get_terraform_state, hz, hp]
  have procFail : ∀ q : ProcResult, q.returncode ≠ 0 →
      get_terraform_state parse (.completed q) =
        { success := false, resources := none, resource_list := none,
          state_data := none,
          error := some (if q.stderr = "" then "No state information available"
                         else strip_ansi_codes q.stderr) } := by
    intro q hz
    simp [get_terraform_state, hz]
  refine ⟨zeroRes r, parseFail r, procFail r2, ?_, ?_, ?_⟩
  · intro hz hp hg hnz heq
    rw [zeroRes r hz hp hg, procFail r2 hnz] at heq
    have hs : (true : Bool) = false := congrArg StateResult.success heq
    exact Bool.noConfusion hs
  · intro hz hp hg hz2 hp2 heq
    rw [zeroRes r hz hp hg, parseFail r2 hz2 hp2] at heq
    have hs : (true : Bool) = false := congrArg StateResult.success heq
    exact Bool.noConfusion hs
  · intro hz hp hnz hd heq
    rw [parseFail r hz hp, procFail r2 hnz] at heq
    have he := congrArg StateResult.error heq
    rcases hd with hd | hd
    · rw [if_pos hd] at he
      have he2 : (some "Failed to parse Terraform state JSON" : Option String) =
          some "No state information available" := he
      exact absurd he2 (by decide)
    · by_cases hs : r2.stderr = ""
      · rw [if_pos hs] at he
        have he2 : (some "Failed to parse Terraform state JSON" : Option String) =
            some "No state information available" := he
        exact absurd he2 (by decide)
      · rw [if_neg hs] at he
        have he2 : (some "Failed to parse Terraform state JSON" : Option String) =
            some (strip_ansi_codes r2.stderr) := he
        exact hd (Option.some.inj he2).symm

theorem get_terraform_state_outcomes_w :
    get_terraform_state exampleParse (.completed ⟨0, "\x7b\x7d", ""⟩) =
      { success := true, resources := some 0, resource_list := some [],
        state_data := some (.obj []), error := none } :=
  (get_terraform_state_outcomes exampleParse ⟨0, "\x7b\x7d", ""⟩ ⟨1, "", "x"⟩
    (.obj [])).1 rfl rfl rfl

/-- C5 counterexample: a process failure whose stderr happens to be exactly
the parse-failure message yields a result identical to a genuine parse
failure, so the two failure conditions are not distinguishable by the
caller in every case. -/
theorem state_failures_collide :
    get_terraform_state exampleParse (.completed ⟨0, "\x7b", ""⟩) =
      get_terraform_state exampleParse
        (.completed ⟨1, "", "Failed to parse Terraform state JSON"⟩) := by
  rfl

/-- C10: every successful ShowState result takes its fields from the parsed
document: the count equals the length of the address list, the list
follows the order of the resources in the document, and a resource
without an address contributes the string Unknown. -/
theorem state_success_invariants (parse : String → Option Json) (o : ProcOutcome)
    (h : (get_terraform_state parse o).success = true) :
    ∃ sd xs l,
      (get_terraform_state parse o).state_data = some sd ∧
      getResources sd = .ok xs ∧
      mapExcept addrOf xs = .ok l ∧
      (get_terraform_state parse o).resources = some xs.length ∧
      (get_terraform_state parse o).resource_list = some l ∧
      l.length = xs.length ∧
      (∀ i (hx : i < xs.length) (hl : i < l.length),
        addrOf (xs.get ⟨i, hx⟩) = .ok (l.get ⟨i, hl⟩)) ∧
      (∀ fields, lookupLast fields "address" = none →
        addrOf (.obj fields) = .ok (.str "Unknown")) := by
  cases o with
  | timedOut => simp [get_terraform_state] at h
  | exn m => simp [get_terraform_state] at h
  | completed r =>
    by_cases hz : r.returncode = 0
    · cases hp : parse r.stdout with
      | none => simp [get_terraform_state, hz, hp] at h
      | some sd =>
        cases hg : getResources sd with
        | error e => simp [get_terraform_state, hz, hp, hg] at h
        | ok xs =>
          cases hm : mapExcept addrOf xs with
          | error e => simp [get_terraform_state, hz, hp, hg, hm] at h
          | ok l =>
            refine ⟨sd, xs, l, ?_, hg, hm, ?_, ?_,
              mapExcept_ok_length hm, mapExcept_ok_get hm, ?_⟩
            · simp [get_terraform_state, hz, hp, hg, hm]
            · simp [get_terraform_state, hz, hp, hg, hm]
            · simp [get_terraform_state, hz, hp, hg, hm]
            · intro fields hf
              simp [addrOf, pyGet, hf]
    · simp [get_terraform_state, hz] at h

theorem state_success_invariants_w :
    ∃ sd xs l,
      (get_terraform_state exampleParse
        (.completed ⟨0, demoStateDoc, ""⟩)).state_data = some sd ∧
      getResources sd = .ok xs ∧
      mapExcept addrOf xs = .ok l ∧
      (get_terraform_state exampleParse
        (.completed ⟨0, demoStateDoc, ""⟩)).resources = some xs.length ∧
      (get_terraform_state exampleParse
        (.completed ⟨0, demoStateDoc, ""⟩)).resource_list = some l ∧
      l.length = xs.length ∧
      (∀ i (hx : i < xs.length) (hl : i < l.length),
        addrOf (xs.get ⟨i, hx⟩) = .ok (l.get ⟨i, hl⟩)) ∧
      (∀ fields, lookupLast fields "address" = none →
        addrOf (.obj fields) = .ok (.str "Unknown")) :=
  state_success_invariants exampleParse (.completed ⟨0, demoStateDoc, ""⟩) rfl

end DeployTrigger
